import Mathlib

/-!
Shallow embedding of the authentication core of the bookwork-api repository
(Go). Sources embedded here:

* `internal/auth` service (JWT issue/validate, bcrypt password hashing,
  auth middleware) — `Service`, `Claims`, `generateToken`, `ValidateToken`,
  `GenerateTokens`, `HashPassword`, `VerifyPassword`, `AuthMiddleware`;
* `internal/handlers/auth.go` — `Login`, `Refresh`, `Logout`,
  `storeRefreshToken`, `isRefreshTokenValid`, `revokeRefreshToken`.

Cryptographic primitives (HMAC-SHA256 signatures, bcrypt digests) are
modelled symbolically: a signature is the tuple (secret, algorithm, signed
content) and verification is equality of that tuple, which captures exactly
"the signature verifies iff it was produced with the same secret over the
same content"; a bcrypt digest records (cost, salt) and a key that is the
symbolic one-way image of (cost, salt, plaintext), and comparison recomputes
that image.  Time is an integer parameter `now`; the database is an explicit
list of rows.
-/

namespace Bookwork

/-- JWT signing algorithms, as discriminated by the Go `jwt` library's
`token.Method` check in `ValidateToken` (`*jwt.SigningMethodHMAC`). -/
inductive Alg where
  | HS256
  | HS384
  | HS512
  | RS256
  | none
deriving DecidableEq, Repr

/-- Whether an algorithm is in the HMAC family; `ValidateToken`'s key
function accepts exactly these. -/
def Alg.isHMAC : Alg → Bool
  | .HS256 => true
  | .HS384 => true
  | .HS512 => true
  | _ => false

/-- `auth.Claims`: custom fields plus the embedded `jwt.RegisteredClaims`
used by `generateToken` (Issuer, Subject, IssuedAt, ExpiresAt, NotBefore).
`userID` models the `uuid.UUID`; times are Unix seconds as `Int`. -/
structure Claims where
  userID : Nat
  email : String
  role : String
  type : String
  issuer : String
  subject : String
  issuedAt : Int
  expiresAt : Int
  notBefore : Int
deriving DecidableEq, Repr

/-- The symbolic value of an HMAC signature: the secret together with the
signed header algorithm and payload. -/
abbrev Sig := String × Alg × Claims

/-- A compact signed credential: header algorithm, payload claims, and the
signature over both. -/
structure SignedToken where
  alg : Alg
  claims : Claims
  sig : Sig
deriving DecidableEq, Repr

/-- `auth.Service`: the process-wide signing secret and issuer string
(`NewService(secretKey, issuer)`). -/
structure Service where
  secretKey : String
  issuer : String
deriving DecidableEq, Repr

/-- Symbolic bcrypt digest over plaintexts of type `α`
(`α = String` for passwords, `α = SignedToken` for stored refresh
credentials, which Go hashes as strings).  `key` is the symbolic image of
(cost, salt, plaintext) under the one-way function. -/
structure BcryptDigest (α : Type) where
  cost : Nat
  salt : Nat
  key : Nat × Nat × α
deriving DecidableEq, Repr

/-- `bcrypt.GenerateFromPassword`: salted adaptive hash of the plaintext. -/
def bcryptGenerateFromPassword {α : Type} (cost salt : Nat) (password : α) :
    BcryptDigest α :=
  { cost := cost, salt := salt, key := (cost, salt, password) }

/-- `bcrypt.CompareHashAndPassword == nil`: recompute the keyed image with
the digest's own cost and salt and compare. -/
def bcryptCompare {α : Type} [DecidableEq α] (digest : BcryptDigest α)
    (password : α) : Bool :=
  digest.key = (digest.cost, digest.salt, password)

/-- `Service.HashPassword`: bcrypt at `DefaultCost` (10) with a fresh salt
supplied by the environment. -/
def Service.hashPassword (_s : Service) (salt : Nat) (password : String) :
    BcryptDigest String :=
  bcryptGenerateFromPassword 10 salt password

/-- `Service.VerifyPassword(hashedPassword, password)`:
`bcrypt.CompareHashAndPassword([]byte(hashedPassword), []byte(password)) == nil`. -/
def Service.verifyPassword (_s : Service) (hashedPassword : BcryptDigest String)
    (password : String) : Bool :=
  bcryptCompare hashedPassword password

/-- A user row as the handlers read it (`getUserByEmail` / `getUserByID`
select these columns; the queries filter on `is_active = true`). -/
structure UserRow where
  id : Nat
  email : String
  passwordHash : BcryptDigest String
  role : String
  isActive : Bool
deriving Repr

/-- `Service.generateToken(user, tokenType, duration)`: builds the claims
with `IssuedAt = now`, `ExpiresAt = now + duration`, `NotBefore = now`,
`Issuer = s.issuer`, `Subject = user.ID.String()`, and signs with HS256
over the service secret. -/
def Service.generateToken (s : Service) (user : UserRow) (tokenType : String)
    (duration : Int) (now : Int) : SignedToken :=
  let claims : Claims :=
    { userID := user.id
      email := user.email
      role := user.role
      type := tokenType
      issuer := s.issuer
      subject := toString user.id
      issuedAt := now
      expiresAt := now + duration
      notBefore := now }
  { alg := .HS256, claims := claims, sig := (s.secretKey, .HS256, claims) }

/-- `models.TokenResponse`. -/
structure TokenResponse where
  accessToken : SignedToken
  refreshToken : SignedToken
  expiresIn : Int
deriving Repr

/-- `Service.GenerateTokens(user)`: access token for 30 minutes, refresh
token for 7 days, `ExpiresIn = 1800`. -/
def Service.generateTokens (s : Service) (user : UserRow) (now : Int) :
    TokenResponse :=
  { accessToken := s.generateToken user "access" (30 * 60) now
    refreshToken := s.generateToken user "refresh" (7 * 24 * 60 * 60) now
    expiresIn := 1800 }

/-- `Service.ValidateToken(tokenString)`: rejects non-HMAC algorithms via
the key function, verifies the signature against the service secret, and
runs the jwt library's default registered-claims validation against `now`
(expiry and not-before; issued-at and issuer checks are options the source
does not enable).  Returns the reconstructed claims on success. -/
def Service.validateToken (s : Service) (now : Int) (tok : SignedToken) :
    Except String Claims :=
  if ¬ tok.alg.isHMAC then
    .error "unexpected signing method"
  else if tok.sig ≠ (s.secretKey, tok.alg, tok.claims) then
    .error "failed to parse token: signature is invalid"
  else if ¬ now < tok.claims.expiresAt then
    .error "failed to parse token: token is expired"
  else if now < tok.claims.notBefore then
    .error "failed to parse token: token is not valid yet"
  else
    .ok tok.claims

/-- A word of the `Authorization` header after `strings.Split(h, " ")`:
either a plain string piece or a compact credential. -/
inductive Word where
  | str (s : String)
  | tok (t : SignedToken)
deriving DecidableEq, Repr

/-- Outcome of the auth middleware for one request: either an error
response is written and the next handler is NOT invoked, or the request
passes through with the identity injected into the context. -/
inductive GateResult where
  | reject (status : Nat) (code : String) (message : String)
  | pass (userID : Nat) (email : String) (role : String)
deriving DecidableEq, Repr

/-- `Service.AuthMiddleware`: reads the `Authorization` header (the empty
list models the absent/empty header, otherwise the list is the result of
splitting on spaces), requires exactly `Bearer <credential>`, validates the
credential, requires `claims.Type == "access"`, and on success injects
userID/email/role into the request context. -/
def Service.authMiddleware (s : Service) (now : Int) (header : List Word) :
    GateResult :=
  match header with
  | [] => .reject 401 "UNAUTHORIZED" "Missing authorization header"
  | [Word.str "Bearer", credential] =>
      match credential with
      | .str _ =>
          -- a plain string in credential position never parses as a token
          .reject 401 "UNAUTHORIZED" "Invalid or expired token"
      | .tok t =>
          match s.validateToken now t with
          | .error _ => .reject 401 "UNAUTHORIZED" "Invalid or expired token"
          | .ok claims =>
              if claims.type ≠ "access" then
                .reject 401 "UNAUTHORIZED" "Invalid token type"
              else
                .pass claims.userID claims.email claims.role
  | _ => .reject 401 "UNAUTHORIZED" "Invalid authorization header format"

/-! ## Refresh-token store (`refresh_tokens` table and its queries) -/

/-- One row of the `refresh_tokens` table as the handlers touch it. -/
structure RefreshRecord where
  userID : Nat
  tokenHash : BcryptDigest SignedToken
  expiresAt : Int
  isRevoked : Bool
deriving DecidableEq, Repr

/-- The `refresh_tokens` table. -/
abbrev RefreshStore := List RefreshRecord

/-- `AuthHandler.storeRefreshToken`: bcrypt-hash the credential at
`DefaultCost` and insert a row with `expires_at = now + 7 days`. -/
def storeRefreshToken (now : Int) (salt : Nat) (store : RefreshStore)
    (userID : Nat) (token : SignedToken) : RefreshStore :=
  { userID := userID
    tokenHash := bcryptGenerateFromPassword 10 salt token
    expiresAt := now + 7 * 24 * 60 * 60
    isRevoked := false } :: store

/-- The WHERE clause shared by `isRefreshTokenValid` and
`revokeRefreshToken`: `user_id = $1 AND expires_at > NOW() AND
is_revoked = false`. -/
def liveRowFor (now : Int) (userID : Nat) (r : RefreshRecord) : Bool :=
  r.userID = userID ∧ now < r.expiresAt ∧ r.isRevoked = false

/-- `AuthHandler.isRefreshTokenValid`: select the `token_hash` of every
non-expired, non-revoked row of the user and bcrypt-compare the presented
credential against each until one matches. -/
def isRefreshTokenValid (now : Int) (store : RefreshStore) (userID : Nat)
    (token : SignedToken) : Bool :=
  (store.filter (liveRowFor now userID)).any
    (fun r => bcryptCompare r.tokenHash token)

/-- `AuthHandler.revokeRefreshToken`: `UPDATE refresh_tokens SET
is_revoked = true WHERE user_id = $1 AND expires_at > NOW() AND
is_revoked = false` (the presented credential is ignored; every live row of
the user is revoked). -/
def revokeRefreshToken (now : Int) (store : RefreshStore) (userID : Nat) :
    RefreshStore :=
  store.map (fun r =>
    if liveRowFor now userID r then { r with isRevoked := true } else r)

/-! ## Handlers (`internal/handlers/auth.go`) -/

/-- `getUserByEmail`: `SELECT ... FROM users WHERE email = $1 AND
is_active = true` (ErrNoRows modelled as `none`). -/
def getUserByEmail (users : List UserRow) (email : String) : Option UserRow :=
  users.find? (fun u => u.email = email ∧ u.isActive = true)

/-- `getUserByID`: `SELECT ... FROM users WHERE id = $1 AND
is_active = true`. -/
def getUserByID (users : List UserRow) (userID : Nat) : Option UserRow :=
  users.find? (fun u => u.id = userID ∧ u.isActive = true)

/-- An HTTP response of the auth handlers, reduced to what the claims
observe: status, error code and message on failure, or the returned
credential on success. -/
inductive HandlerResult where
  | err (status : Nat) (code : String) (message : String)
  | okLogin (token : SignedToken)
  | okRefresh (token : SignedToken)
  | okLogout (message : String)
deriving DecidableEq, Repr

/-- `AuthHandler.Login`, after JSON decoding (the body is the pair
email/password): field validation, user lookup, password verification,
active check, token generation, refresh-token persistence.  Returns the
response together with the refresh store after the call. -/
def loginHandler (s : Service) (now : Int) (salt : Nat)
    (users : List UserRow) (store : RefreshStore)
    (email password : String) : HandlerResult × RefreshStore :=
  if email = "" ∨ password = "" then
    (.err 400 "VALIDATION_ERROR" "Email and password are required", store)
  else
    match getUserByEmail users email with
    | Option.none =>
        (.err 401 "UNAUTHORIZED" "Invalid credentials", store)
    | some user =>
        if ¬ s.verifyPassword user.passwordHash password then
          (.err 401 "UNAUTHORIZED" "Invalid credentials", store)
        else if ¬ user.isActive then
          (.err 401 "UNAUTHORIZED" "Account is deactivated", store)
        else
          let tokens := s.generateTokens user now
          (.okLogin tokens.accessToken,
           storeRefreshToken now salt store user.id tokens.refreshToken)

/-- `AuthHandler.Refresh`, after JSON decoding (`none` models the empty
`refreshToken` field): validate the credential, require
`claims.Type == "refresh"`, confirm a live matching row, look the user up,
generate a fresh pair, and return only the new access credential.  Returns
the response together with the refresh store after the call. -/
def refreshHandler (s : Service) (now : Int) (users : List UserRow)
    (store : RefreshStore) (req : Option SignedToken) :
    HandlerResult × RefreshStore :=
  match req with
  | Option.none =>
      (.err 400 "VALIDATION_ERROR" "Refresh token is required", store)
  | some tok =>
      match s.validateToken now tok with
      | .error _ =>
          (.err 401 "UNAUTHORIZED" "Invalid refresh token", store)
      | .ok claims =>
          if claims.type ≠ "refresh" then
            (.err 401 "UNAUTHORIZED" "Invalid token type", store)
          else if ¬ isRefreshTokenValid now store claims.userID tok then
            (.err 401 "UNAUTHORIZED" "Refresh token not found or revoked",
             store)
          else
            match getUserByID users claims.userID with
            | Option.none =>
                (.err 401 "UNAUTHORIZED" "User not found", store)
            | some user =>
                let newTokens := s.generateTokens user now
                (.okRefresh newTokens.accessToken, store)

/-- `AuthHandler.Logout`, after JSON decoding: validate the presented
credential (no token-kind check) and revoke every live refresh row of the
claimed user.  Returns the response together with the refresh store after
the call. -/
def logoutHandler (s : Service) (now : Int) (store : RefreshStore)
    (req : Option SignedToken) : HandlerResult × RefreshStore :=
  match req with
  | Option.none =>
      (.err 400 "VALIDATION_ERROR" "Refresh token is required", store)
  | some tok =>
      match s.validateToken now tok with
      | .error _ =>
          (.err 401 "UNAUTHORIZED" "Invalid refresh token", store)
      | .ok claims =>
          (.okLogout "Successfully logged out",
           revokeRefreshToken now store claims.userID)

/-! ## Concrete fixtures (mirroring the repository's own test data) -/

/-- The service the repository's tests construct:
`NewService("test-secret", "test-issuer")`. -/
def testService : Service := { secretKey := "test-secret", issuer := "test-issuer" }

/-- The active member user of the tests. -/
def testUser : UserRow :=
  { id := 1
    email := "test@example.com"
    passwordHash := bcryptGenerateFromPassword 10 0 "testpassword123"
    role := "member"
    isActive := true }

/-- An access credential for `testUser` issued at time 0. -/
def testAccessToken : SignedToken :=
  testService.generateToken testUser "access" (30 * 60) 0

/-- A refresh credential for `testUser` issued at time 0. -/
def testRefreshToken : SignedToken :=
  testService.generateToken testUser "refresh" (7 * 24 * 60 * 60) 0

/-- A refresh store holding the bcrypt hash of `testRefreshToken`, as
`storeRefreshToken` would leave it after a login at time 0. -/
def testStore : RefreshStore :=
  storeRefreshToken 0 0 [] testUser.id testRefreshToken

/-! ## Claims -/

/-- C1: AuthGate accepts only credentials whose claims carry
`tokenKind = access`: a credential that passes signature and time
validation but whose kind is not "access" is rejected and the next handler
is not invoked (the middleware returns a `reject` response, never `pass`). -/
theorem authGate_rejects_non_access (s : Service) (now : Int)
    (t : SignedToken) (c : Claims)
    (hval : s.validateToken now t = .ok c) (hkind : c.type ≠ "access") :
    ∃ status code msg,
      s.authMiddleware now [.str "Bearer", .tok t] = .reject status code msg := by
  refine ⟨401, "UNAUTHORIZED", "Invalid token type", ?_⟩
  simp [Service.authMiddleware, hval, hkind]

/-- Witness for C1: a freshly issued refresh credential validates but is
rejected by the middleware. -/
theorem authGate_rejects_non_access_witness :
    ∃ status code msg,
      testService.authMiddleware 0 [.str "Bearer", .tok testRefreshToken]
        = .reject status code msg :=
  authGate_rejects_non_access testService 0 testRefreshToken
    testRefreshToken.claims rfl (by decide)

/-- C2: round trip — for every user identity, token kind and positive
lifetime, validating a credential immediately after issuance succeeds and
returns claims with the same userID, email, role and kind. -/
theorem validate_issue_roundTrip (s : Service) (user : UserRow)
    (kind : String) (dur now : Int) (hdur : 0 < dur) :
    s.validateToken now (s.generateToken user kind dur now) =
      .ok { userID := user.id
            email := user.email
            role := user.role
            type := kind
            issuer := s.issuer
            subject := toString user.id
            issuedAt := now
            expiresAt := now + dur
            notBefore := now } := by
  simp [Service.validateToken, Service.generateToken, Alg.isHMAC]
  omega

/-- Witness for C2: the round trip at the test service, test user, kind
"refresh" and the 7-day lifetime. -/
theorem validate_issue_roundTrip_witness :
    testService.validateToken 0
        (testService.generateToken testUser "refresh" (7 * 24 * 60 * 60) 0) =
      .ok { userID := testUser.id
            email := testUser.email
            role := testUser.role
            type := "refresh"
            issuer := testService.issuer
            subject := toString testUser.id
            issuedAt := 0
            expiresAt := 0 + 7 * 24 * 60 * 60
            notBefore := 0 } :=
  validate_issue_roundTrip testService testUser "refresh"
    (7 * 24 * 60 * 60) 0 (by decide)

/-- C10: Refresh leaves the refresh-token store unchanged on every path —
no row is inserted, revoked or modified; the refresh credential generated
internally by `GenerateTokens` is discarded. -/
theorem refresh_frame (s : Service) (now : Int) (users : List UserRow)
    (store : RefreshStore) (req : Option SignedToken) :
    (refreshHandler s now users store req).2 = store := by
  unfold refreshHandler
  repeat' split
  all_goals rfl

/-! ## C3: issuer embedding and (absence of) issuer validation -/

/-- Claims correctly signed with the test service's secret but carrying a
different issuer than the configured one. -/
def forgedIssuerClaims : Claims :=
  { userID := 1
    email := "test@example.com"
    role := "member"
    type := "access"
    issuer := "evil-issuer"
    subject := "1"
    issuedAt := 0
    expiresAt := 1800
    notBefore := 0 }

/-- A credential over `forgedIssuerClaims`, signed with the test service's
shared secret. -/
def forgedIssuerToken : SignedToken :=
  { alg := .HS256
    claims := forgedIssuerClaims
    sig := ("test-secret", .HS256, forgedIssuerClaims) }

/-- C3 counterexample: a credential correctly signed with the shared secret
whose embedded issuer differs from the configured issuer is ACCEPTED by
`ValidateToken` — the source configures no issuer check in
`jwt.ParseWithClaims`, so the claim "ValidateToken returns an error" is
false at this input. -/
theorem issuer_not_checked_counterexample :
    forgedIssuerToken.claims.issuer ≠ testService.issuer ∧
    testService.validateToken 0 forgedIssuerToken = .ok forgedIssuerClaims :=
  ⟨by decide, rfl⟩

/-- C3 amended: every issued credential embeds the configured issuer in its
claims, but validation does not check the issuer — any credential signed
with the shared secret that is inside its validity window is accepted by
`ValidateToken`, whatever its embedded issuer. -/
theorem issuer_embedded_but_not_validated (s : Service) (user : UserRow)
    (kind : String) (dur now : Int) (t : SignedToken)
    (halg : t.alg.isHMAC = true)
    (hsig : t.sig = (s.secretKey, t.alg, t.claims))
    (hexp : now < t.claims.expiresAt)
    (hnbf : t.claims.notBefore ≤ now) :
    (s.generateToken user kind dur now).claims.issuer = s.issuer ∧
    s.validateToken now t = .ok t.claims := by
  refine ⟨rfl, ?_⟩
  have h1 : ¬ now < t.claims.notBefore := not_lt.2 hnbf
  simp [Service.validateToken, halg, hsig, hexp, h1]

/-- Witness for the amended C3, at the forged-issuer credential. -/
theorem issuer_embedded_but_not_validated_witness :
    (testService.generateToken testUser "access" 1800 0).claims.issuer
        = testService.issuer ∧
    testService.validateToken 0 forgedIssuerToken = .ok forgedIssuerToken.claims :=
  issuer_embedded_but_not_validated testService testUser "access" 1800 0
    forgedIssuerToken rfl rfl (by decide) (by decide)

/-! ## C4: revocation -/

/-- C4: `RevokeAll` (the source's `revokeRefreshToken`) marks every
non-revoked, non-expired refresh row of the user as revoked, and afterwards
every refresh credential that was previously valid for that user fails
`IsValid`. -/
theorem revokeAll_invalidates (now : Int) (store : RefreshStore) (uid : Nat)
    (tok : SignedToken)
    (_hprev : isRefreshTokenValid now store uid tok = true) :
    (∀ r ∈ store, liveRowFor now uid r = true →
        { r with isRevoked := true } ∈ revokeRefreshToken now store uid) ∧
    isRefreshTokenValid now (revokeRefreshToken now store uid) uid tok = false := by
  have hnone : ∀ r ∈ revokeRefreshToken now store uid,
      liveRowFor now uid r = false := by
    intro r hr
    simp only [revokeRefreshToken, List.mem_map] at hr
    obtain ⟨a, _, rfl⟩ := hr
    by_cases h : liveRowFor now uid a = true
    · rw [if_pos h]
      simp [liveRowFor]
    · rw [if_neg h]
      exact Bool.eq_false_iff.mpr h
  refine ⟨?_, ?_⟩
  · intro r hr hlive
    simpa [revokeRefreshToken, hlive] using
      List.mem_map_of_mem
        (fun r => if liveRowFor now uid r then { r with isRevoked := true } else r)
        hr
  · rw [isRefreshTokenValid, Bool.eq_false_iff, Ne, List.any_eq_true]
    rintro ⟨r, hr, -⟩
    rcases List.mem_filter.1 hr with ⟨hmem, hlive⟩
    rw [hnone r hmem] at hlive
    cases hlive

/-- Witness for C4: the hash-backed test store, revoked, no longer
validates the previously valid refresh credential. -/
theorem revokeAll_invalidates_witness :
    isRefreshTokenValid 0 (revokeRefreshToken 0 testStore testUser.id)
      testUser.id testRefreshToken = false :=
  (revokeAll_invalidates 0 testStore testUser.id testRefreshToken rfl).2

/-! ## C5: verification of the empty plaintext -/

/-- C5 counterexample: against a digest produced by hashing the empty
string, `VerifyPassword` returns TRUE for the empty plaintext —
`bcrypt.CompareHashAndPassword` simply recomputes the digest and the source
has no empty-plaintext guard, so "Verify(digest, \x22\x22) returns false
for every digest" is false at this input. -/
theorem verify_empty_counterexample :
    testService.verifyPassword (testService.hashPassword 0 "") "" = true := rfl

/-- C5 amended: the empty plaintext verifies false against every digest
produced by hashing a NONEMPTY plaintext; a digest of the empty string
itself verifies true against the empty plaintext. -/
theorem verify_empty_amended (s : Service) (salt : Nat) (password : String)
    (hp : password ≠ "") :
    s.verifyPassword (s.hashPassword salt password) "" = false := by
  simpa [Service.verifyPassword, Service.hashPassword, bcryptCompare,
    bcryptGenerateFromPassword] using hp

/-- Witness for the amended C5 at the nonempty password "x". -/
theorem verify_empty_amended_witness :
    testService.verifyPassword (testService.hashPassword 0 "x") "" = false :=
  verify_empty_amended testService 0 "x" (by decide)

/-! ## C6: status code for a wrong-kind credential at the gate -/

/-- The HTTP status written by a gate outcome (`none` when the request
passes through to the next handler). -/
def GateResult.status : GateResult → Option Nat
  | .reject st _ _ => some st
  | .pass _ _ _ => Option.none

/-- C6 counterexample: a validated refresh credential presented as an
access credential makes the middleware respond with status 401, not the
403 the claim states (`http.StatusUnauthorized` at the
`claims.Type != "access"` branch). -/
theorem wrongKind_403_counterexample :
    (testService.authMiddleware 0
        [.str "Bearer", .tok testRefreshToken]).status = some 401 ∧
    (some 401 : Option Nat) ≠ some 403 :=
  ⟨rfl, by decide⟩

/-- C6 amended: a credential that validates but has the wrong token kind is
answered with 401 Unauthorized, code UNAUTHORIZED, message "Invalid token
type" — the same 401 status used for a missing header; only the message
differs. -/
theorem wrongKind_responds_401 (s : Service) (now : Int) (t : SignedToken)
    (c : Claims) (hval : s.validateToken now t = .ok c)
    (hkind : c.type ≠ "access") :
    s.authMiddleware now [.str "Bearer", .tok t]
        = .reject 401 "UNAUTHORIZED" "Invalid token type" ∧
    s.authMiddleware now []
        = .reject 401 "UNAUTHORIZED" "Missing authorization header" := by
  exact ⟨by simp [Service.authMiddleware, hval, hkind], rfl⟩

/-- Witness for the amended C6 at the test refresh credential. -/
theorem wrongKind_responds_401_witness :
    testService.authMiddleware 0 [.str "Bearer", .tok testRefreshToken]
        = .reject 401 "UNAUTHORIZED" "Invalid token type" ∧
    testService.authMiddleware 0 []
        = .reject 401 "UNAUTHORIZED" "Missing authorization header" :=
  wrongKind_responds_401 testService 0 testRefreshToken
    testRefreshToken.claims rfl (by decide)

/-! ## C7: Refresh is repeatable on the same credential -/

/-- C7: with a still-valid (signed, unexpired, kind "refresh", live in the
store) refresh credential, `Refresh` succeeds, leaves the store as it was,
and a second identical call succeeds with the same outcome — the first call
does not invalidate the presented credential. -/
theorem refresh_repeatable (s : Service) (now : Int) (users : List UserRow)
    (store : RefreshStore) (tok : SignedToken) (c : Claims) (user : UserRow)
    (hval : s.validateToken now tok = .ok c)
    (hkind : c.type = "refresh")
    (hlive : isRefreshTokenValid now store c.userID tok = true)
    (huser : getUserByID users c.userID = some user) :
    refreshHandler s now users store (some tok)
        = (.okRefresh (s.generateTokens user now).accessToken, store) ∧
    refreshHandler s now users
        (refreshHandler s now users store (some tok)).2 (some tok)
        = (.okRefresh (s.generateTokens user now).accessToken, store) := by
  have h1 : refreshHandler s now users store (some tok)
      = (.okRefresh (s.generateTokens user now).accessToken, store) := by
    simp [refreshHandler, hval, hkind, hlive, huser]
  exact ⟨h1, by rw [h1]; exact h1⟩

/-- Witness for C7 at the test fixtures. -/
theorem refresh_repeatable_witness :
    refreshHandler testService 0 [testUser] testStore (some testRefreshToken)
        = (.okRefresh (testService.generateTokens testUser 0).accessToken,
           testStore) ∧
    refreshHandler testService 0 [testUser]
        (refreshHandler testService 0 [testUser] testStore
          (some testRefreshToken)).2 (some testRefreshToken)
        = (.okRefresh (testService.generateTokens testUser 0).accessToken,
           testStore) :=
  refresh_repeatable testService 0 [testUser] testStore testRefreshToken
    testRefreshToken.claims testUser rfl rfl rfl rfl

/-! ## C8: no user-enumeration signal on login -/

/-- C8: a login with an unknown email and a login with a known email but
wrong password produce the identical response: 401, code UNAUTHORIZED,
message "Invalid credentials". -/
theorem login_no_user_enumeration (s : Service) (now : Int) (salt : Nat)
    (users : List UserRow) (store : RefreshStore)
    (emailU pwU emailK pwK : String) (u : UserRow)
    (heU : emailU ≠ "") (hpU : pwU ≠ "")
    (heK : emailK ≠ "") (hpK : pwK ≠ "")
    (hunknown : getUserByEmail users emailU = Option.none)
    (hfound : getUserByEmail users emailK = some u)
    (hwrong : s.verifyPassword u.passwordHash pwK = false) :
    (loginHandler s now salt users store emailU pwU).1
        = .err 401 "UNAUTHORIZED" "Invalid credentials" ∧
    (loginHandler s now salt users store emailK pwK).1
        = .err 401 "UNAUTHORIZED" "Invalid credentials" := by
  constructor
  · simp [loginHandler, heU, hpU, hunknown]
  · simp [loginHandler, heK, hpK, hfound, hwrong]

/-- Witness for C8: an unknown address and the test user's address with a
wrong password get the same response. -/
theorem login_no_user_enumeration_witness :
    (loginHandler testService 0 0 [testUser] []
        "nobody@example.com" "whatever").1
        = .err 401 "UNAUTHORIZED" "Invalid credentials" ∧
    (loginHandler testService 0 0 [testUser] []
        "test@example.com" "wrongpassword").1
        = .err 401 "UNAUTHORIZED" "Invalid credentials" :=
  login_no_user_enumeration testService 0 0 [testUser] []
    "nobody@example.com" "whatever" "test@example.com" "wrongpassword"
    testUser (by decide) (by decide) (by decide) (by decide) rfl rfl rfl

/-! ## C9: Logout does not check the token kind -/

/-- C9: `Logout` accepts every credential that validates — with no check of
`claims.Type`, unlike `Refresh` — extracts its userID, and revokes all of
that user's live refresh rows. -/
theorem logout_ignores_token_kind (s : Service) (now : Int)
    (store : RefreshStore) (tok : SignedToken) (c : Claims)
    (hval : s.validateToken now tok = .ok c) :
    logoutHandler s now store (some tok)
        = (.okLogout "Successfully logged out",
           revokeRefreshToken now store c.userID) := by
  simp [logoutHandler, hval]

/-- Witness for C9: an ACCESS credential supplied as the refreshToken is
accepted by Logout and triggers revocation of the user's rows. -/
theorem logout_ignores_token_kind_witness :
    logoutHandler testService 0 testStore (some testAccessToken)
        = (.okLogout "Successfully logged out",
           revokeRefreshToken 0 testStore testAccessToken.claims.userID) :=
  logout_ignores_token_kind testService 0 testStore testAccessToken
    testAccessToken.claims rfl

end Bookwork
